import Mathlib

/-!
# Verification of the Mojik AI interaction script (src/script.js)

A shallow embedding of the page-interaction controller in src/script.js.
DOM pieces are modelled explicitly:

* an element's class list is a `List String` (`classList.add` appends when
  absent, `classList.remove` filters every occurrence);
* an optional page element is an `Option`; a property access on a missing
  (null) element is an exception, modelled with `Except String`;
* timers and other side effects of a handler are recorded as an explicit
  effect trace;
* the document body's inline overflow style is a `String` (the empty string
  means "no inline style", deferring to the stylesheet).

Numbers that the script only compares or subtracts (scroll offsets, element
offsets) are `Nat` / `Int`; no overflow is possible in JS doubles at these
magnitudes.
-/

namespace Mojik

/-- The configuration object of the script (src/script.js, `config`). -/
structure Config where
  scrollThreshold : Nat
  animationDelay : Nat

/-- `config = { scrollThreshold: 100, animationDelay: 100, ... }`.
The intersection threshold 0.2 is only handed to the browser API and never
computed with, so it is not part of the embedded configuration. -/
def config : Config := { scrollThreshold := 100, animationDelay := 100 }

/-! ## classList model -/

/-- `el.classList.add c`: a DOM token list adds a class only when it is not
already present (the token list is a set; we keep insertion order). -/
def addClass (cls : List String) (c : String) : List String :=
  if c ∈ cls then cls else cls ++ [c]

/-- `el.classList.remove c`: removes every occurrence of the token. -/
def removeClass (cls : List String) (c : String) : List String :=
  cls.filter (fun x => x ≠ c)

theorem mem_addClass_self (cls : List String) (c : String) :
    c ∈ addClass cls c := by
  unfold addClass
  by_cases h : c ∈ cls <;> simp [h]

theorem not_mem_removeClass_self (cls : List String) (c : String) :
    c ∉ removeClass cls c := by
  unfold removeClass
  simp

theorem addClass_idem (cls : List String) (c : String) :
    addClass (addClass cls c) c = addClass cls c := by
  unfold addClass
  by_cases h : c ∈ cls <;> simp [h]

theorem removeClass_idem (cls : List String) (c : String) :
    removeClass (removeClass cls c) c = removeClass cls c := by
  unfold removeClass
  simp [List.filter_filter]

/-! ## Scroll handlers (src/script.js lines 48-75)

`handleHeaderScroll` and `handleBackToTopVisibility` dereference
`elements.header` / `elements.backToTop` without a presence check, so a
missing element is a thrown TypeError, modelled as `Except.error`. -/

/-- Core of `handleHeaderScroll` once the header element exists: toggles
the class by comparing `scrollY` with `config.scrollThreshold`. -/
def headerScrollStep (scrollY : Nat) (cls : List String) : List String :=
  if scrollY > config.scrollThreshold then
    addClass cls "header--scrolled"
  else
    removeClass cls "header--scrolled"

/-- `handleHeaderScroll()`: reads `window.scrollY`, then accesses
`elements.header.classList` with no null guard. -/
def handleHeaderScroll (scrollY : Nat) (header : Option (List String)) :
    Except String (List String) :=
  match header with
  | none => .error "TypeError: Cannot read properties of null (reading classList)"
  | some cls => .ok (headerScrollStep scrollY cls)

/-- Core of `handleBackToTopVisibility` once the button exists: compares
`scrollY` with `config.scrollThreshold * 3`. -/
def backToTopStep (scrollY : Nat) (cls : List String) : List String :=
  if scrollY > config.scrollThreshold * 3 then
    addClass cls "footer__back-to-top--visible"
  else
    removeClass cls "footer__back-to-top--visible"

/-- `handleBackToTopVisibility()`: accesses `elements.backToTop.classList`
with no null guard. -/
def handleBackToTopVisibility (scrollY : Nat) (backToTop : Option (List String)) :
    Except String (List String) :=
  match backToTop with
  | none => .error "TypeError: Cannot read properties of null (reading classList)"
  | some cls => .ok (backToTopStep scrollY cls)

/-- `handleParallax()` (src/script.js lines 333-341): the hero element IS
guarded (`if (hero && scrollY < window.innerHeight)`).  The result is the
hero's `backgroundPositionY` expressed in half-pixels (the script writes
`scrollY * 0.5` px, which is exact in halves), or the unchanged value. -/
def handleParallax (scrollY innerHeight : Nat)
    (hero : Option Nat) : Except String (Option Nat) :=
  match hero with
  | none => .ok none
  | some posHalfPx =>
      if scrollY < innerHeight then .ok (some scrollY) else .ok (some posHalfPx)

/-! ## Modal manager (src/script.js lines 96-114)

`openModal` adds `modal--active` to the modal's class list and sets
`document.body.style.overflow = 'hidden'`; `closeModal` removes the class
and sets the overflow style to the empty string.  (The deferred focus call
in `openModal` touches neither the modal's presentation state nor the body
style; it is outside this state.) -/

/-- The observable state the modal manager mutates: the modal root's class
list and the body's inline overflow style. -/
structure ModalState where
  modalClasses : List String
  bodyOverflow : String
  deriving DecidableEq, Repr

/-- `openModal()` (lines 96-105), restricted to its synchronous effects on
`ModalState`. -/
def openModal (st : ModalState) : ModalState :=
  { modalClasses := addClass st.modalClasses "modal--active"
    bodyOverflow := "hidden" }

/-- `closeModal()` (lines 111-114). -/
def closeModal (st : ModalState) : ModalState :=
  { modalClasses := removeClass st.modalClasses "modal--active"
    bodyOverflow := "" }

/-! ## Form validation and submission (src/script.js lines 120-150) -/

/-- Notification kind: the second argument of `showNotification`. -/
inductive NotifType where
  | success
  | error
  deriving DecidableEq, Repr

/-- The characters matched by the JavaScript regex class `\s`. -/
def jsWhitespace (c : Char) : Bool :=
  c = ' ' || c = '\t' || c = '\n' || c = '\x0b' || c = '\x0c' || c = '\r' ||
  c = '\u00A0' || c = '\u1680' ||
  (decide (0x2000 ≤ c.toNat) && decide (c.toNat ≤ 0x200A)) ||
  c = '\u2028' || c = '\u2029' || c = '\u202F' || c = '\u205F' ||
  c = '\u3000' || c = '\uFEFF'

/-- A character admitted by the regex class `[^\s@]`. -/
def isAtomChar (c : Char) : Bool :=
  !(jsWhitespace c) && c ≠ '@'

/-- `emailRegex.test email` for
`emailRegex = /^[^\s@]+@[^\s@]+\.[^\s@]+$/` (line 135).

The anchored regex matches exactly the strings of the form `A@B.C` with
`A`, `B`, `C` nonempty strings of `[^\s@]` characters (`B` and `C` may
themselves contain dots).  We search over the position `i` of the literal
`@` and the position `j` of the literal `.`: the match requires `0 < i`
(`A` nonempty), `i + 1 < j` (`B` nonempty) and `j + 1 < length` (`C`
nonempty). -/
def emailRegexTest (email : String) : Bool :=
  let cs := email.toList
  let n := cs.length
  (List.range n).any fun i =>
    (List.range n).any fun j =>
      decide (0 < i) && decide (i + 1 < j) && decide (j + 1 < n) &&
      (cs.getD i ' ' == '@') && (cs.getD j ' ' == '.') &&
      (cs.take i).all isAtomChar &&
      ((cs.drop (i + 1)).take (j - (i + 1))).all isAtomChar &&
      (cs.drop (j + 1)).all isAtomChar

/-- One observable step performed by `handleFormSubmit`. -/
inductive Effect where
  | preventDefault
  | notify (message : String) (kind : NotifType)
  | consoleLog
  | resetForm
  | scheduleCloseModal (delayMs : Nat)
  deriving DecidableEq, Repr

/-- `handleFormSubmit(event)` (lines 120-150) as the ordered trace of its
observable effects, given the values of the text and email inputs.  A JS
string is falsy exactly when it is empty, so `!name || !email` is
`name = "" or email = ""`. -/
def handleFormSubmit (name email : String) : List Effect :=
  Effect.preventDefault ::
    (if name = "" || email = "" then
      [Effect.notify "Please fill in all fields" .error]
    else if !emailRegexTest email then
      [Effect.notify "Please enter a valid email address" .error]
    else
      [Effect.consoleLog,
       Effect.notify "Welcome to the Mojik family! 🎉" .success,
       Effect.resetForm,
       Effect.scheduleCloseModal 1500])

/-- The number of notifications a trace emits. -/
def countNotify (tr : List Effect) : Nat :=
  (tr.filter fun e =>
    match e with
    | .notify _ _ => true
    | _ => false).length

/-! ## Notification system (src/script.js lines 162-218)

`showNotification(message, type)`:
1. `document.querySelector('.notification')` finds the first element with
   class `notification`, and `.remove()` detaches it if one was found;
2. a fresh notification element is created;
3. a fresh `style` element holding the `slideDown` keyframes is appended to
   `document.head` (unconditionally, on every call);
4. the notification element is appended to `document.body`;
5. a 3000 ms timer is scheduled that fades and then removes that
   notification element only.

We model the parts of the document these steps touch: the list of
notification elements attached to the body (in document order) and the
number of keyframe `style` elements accumulated in the head. -/

/-- A notification element: its message and kind. -/
structure Notification where
  message : String
  kind : NotifType
  deriving DecidableEq, Repr

/-- The document state touched by the notification system. -/
structure Doc where
  notifications : List Notification
  headStyles : Nat
  deriving DecidableEq, Repr

/-- A fresh document: no notification attached, no keyframe style sheet. -/
def Doc.empty : Doc := { notifications := [], headStyles := 0 }

/-- `showNotification(message, type)` (lines 162-218): remove the first
existing notification element if present, append one keyframe style sheet
to the head, append the new notification element to the body. -/
def showNotification (message : String) (kind : NotifType) (d : Doc) : Doc :=
  let remaining :=
    match d.notifications with
    | [] => []
    | _ :: rest => rest
  { notifications := remaining ++ [{ message := message, kind := kind }]
    headStyles := d.headStyles + 1 }

/-- The deferred removal scheduled at line 212: after the 3000 ms delay the
timer fades and detaches its own notification element (the first attached
occurrence equal to it), touching nothing in the head. -/
def notificationRemovalTimer (d : Doc) (n : Notification) : Doc :=
  { d with notifications := d.notifications.erase n }

/-- A sequence of `showNotification` calls, run left to right. -/
def runNotifications (d : Doc) (calls : List (String × NotifType)) : Doc :=
  calls.foldl (fun d c => showNotification c.1 c.2 d) d

/-! ## Reveal animator (src/script.js lines 228-274)

The `IntersectionObserver` callback receives a batch of entries and runs
`entries.forEach((entry, index) => ...)`: for each *intersecting* entry it
sets `animationDelay = index * config.animationDelay` (note: `index` is the
entry's position in the whole batch), adds the class `animate-in`, and
calls `observer.unobserve(entry.target)`.  Elements are identified by a
`Nat` id. -/

/-- One entry of an intersection-observer callback batch. -/
structure Entry where
  isIntersecting : Bool
  target : Nat
  deriving DecidableEq, Repr

/-- The delay assignments `(target, animationDelay in ms)` performed by one
run of the observer callback (lines 241-250): `entry.target.style.animationDelay
= index * config.animationDelay` for each intersecting entry, where `index`
is the entry's position in the full `entries` array. -/
def observerDelays (entries : List Entry) : List (Nat × Nat) :=
  entries.enum.filterMap fun p =>
    if p.2.isIntersecting then some (p.2.target, p.1 * config.animationDelay)
    else none

/-- The delay assignment the spec describes: the index counts only the
intersecting entries of the batch, so the first intersecting element gets
delay 0.  Used solely for comparison with `observerDelays`. -/
def observerDelaysSpec (entries : List Entry) : List (Nat × Nat) :=
  (entries.filter fun e => e.isIntersecting).enum.map fun p =>
    (p.2.target, p.1 * config.animationDelay)

/-- The observer's state: which element ids are still observed, and which
elements carry the `animate-in` class. -/
structure ObsState where
  observed : List Nat
  revealed : List Nat
  deriving DecidableEq, Repr

/-- `classList.add` on a `Nat`-identified element set. -/
def addId (ids : List Nat) (x : Nat) : List Nat :=
  if x ∈ ids then ids else ids ++ [x]

/-- One run of the observer callback on state `st` (lines 241-250): each
intersecting entry gets the `animate-in` class and its target is
unobserved; non-intersecting entries are untouched. -/
def runObserverCallback (st : ObsState) (entries : List Entry) : ObsState :=
  entries.foldl
    (fun s e =>
      if e.isIntersecting then
        { observed := s.observed.filter (fun x => x ≠ e.target)
          revealed := addId s.revealed e.target }
      else s)
    st

/-! ## Anchor smooth-scroll (src/script.js lines 284-307) -/

/-- The outcome of one anchor-link click handler run. -/
inductive ClickOutcome where
  | allowedDefault
  | scrolled (top : Int)
  deriving DecidableEq, Repr

/-- Whether the handler called `event.preventDefault()`. -/
def ClickOutcome.defaultSuppressed : ClickOutcome → Bool
  | .allowedDefault => false
  | .scrolled _ => true

/-- The `top` passed to `window.scrollTo`, if any scroll happened. -/
def ClickOutcome.scrollDest : ClickOutcome → Option Int
  | .allowedDefault => none
  | .scrolled t => some t

/-- The click handler installed by `setupSmoothScroll` (lines 286-305):
`href` is the link's href attribute, `target` is
`document.querySelector(href)` modelled as the matched element's
`offsetTop` when a match exists, and `headerHeight` is
`elements.header.offsetHeight`.  A bare `"#"` returns early; a missing
target skips the interception; otherwise the default jump is suppressed
and the page scrolls to `target.offsetTop - headerHeight`. -/
def anchorClick (href : String) (target : Option Int) (headerHeight : Int) :
    ClickOutcome :=
  if href = "#" then .allowedDefault
  else
    match target with
    | none => .allowedDefault
    | some offsetTop => .scrolled (offsetTop - headerHeight)

/-! ## Keyboard handler and initialization (src/script.js lines 318-323, 417-439)

`handleKeyboard` evaluates
`event.key === 'Escape' && elements.modal.classList.contains('modal--active')`:
when the key is not Escape the `&&` short-circuits and the missing modal is
never dereferenced; when it is Escape, `elements.modal.classList` is read
with no null guard. -/

/-- `handleKeyboard(event)` (lines 318-323), over the modal state. -/
def handleKeyboard (key : String) (modal : Option ModalState) :
    Except String (Option ModalState) :=
  if key = "Escape" then
    match modal with
    | none => .error "TypeError: Cannot read properties of null (reading classList)"
    | some st =>
        if "modal--active" ∈ st.modalClasses then .ok (some (closeModal st))
        else .ok (some st)
  else .ok modal

/-- The unconditional initial calls at the end of `init()` (lines 431-432):
`handleHeaderScroll(); handleBackToTopVisibility();` with no presence
check on either element. -/
def initInitialCalls (scrollY : Nat) (header backToTop : Option (List String)) :
    Except String (List String × List String) := do
  let h ← handleHeaderScroll scrollY header
  let b ← handleBackToTopVisibility scrollY backToTop
  pure (h, b)

/-! ## Helper lemmas -/

theorem showNotification_of_le_one (d : Doc) (h : d.notifications.length ≤ 1)
    (msg : String) (kind : NotifType) :
    (showNotification msg kind d).notifications = [{ message := msg, kind := kind }] := by
  unfold showNotification
  match hd : d.notifications with
  | [] => simp
  | [x] => simp
  | x :: y :: rest => simp [hd] at h

theorem runNotifications_length_le_one (d : Doc) (h : d.notifications.length ≤ 1)
    (calls : List (String × NotifType)) :
    (runNotifications d calls).notifications.length ≤ 1 := by
  induction calls generalizing d with
  | nil => exact h
  | cons c cs ih =>
      have : (showNotification c.1 c.2 d).notifications.length ≤ 1 := by
        rw [showNotification_of_le_one d h]
        simp
      exact ih _ this

theorem runNotifications_headStyles (d : Doc) (calls : List (String × NotifType)) :
    (runNotifications d calls).headStyles = d.headStyles + calls.length := by
  induction calls generalizing d with
  | nil => simp [runNotifications]
  | cons c cs ih =>
      have step : runNotifications d (c :: cs) =
          runNotifications (showNotification c.1 c.2 d) cs := rfl
      rw [step, ih]
      simp [showNotification]
      omega

theorem observerDelays_enumFrom_all (entries : List Entry) (k : Nat)
    (hall : ∀ e ∈ entries, e.isIntersecting = true) :
    (List.enumFrom k entries).filterMap (fun p =>
        if p.2.isIntersecting then some (p.2.target, p.1 * config.animationDelay)
        else none) =
      (List.enumFrom k entries).map
        (fun p => (p.2.target, p.1 * config.animationDelay)) := by
  induction entries generalizing k with
  | nil => rfl
  | cons a t ih =>
      have ha : a.isIntersecting = true := hall a (List.mem_cons_self a t)
      rw [List.enumFrom_cons, List.filterMap_cons, List.map_cons]
      simp only [ha, if_true]
      rw [ih (k + 1) (fun e he => hall e (List.mem_cons_of_mem a he))]

theorem mem_addId (ids : List Nat) (x y : Nat) :
    x ∈ addId ids y ↔ x ∈ ids ∨ x = y := by
  unfold addId
  by_cases h : y ∈ ids
  · simp only [if_pos h]
    constructor
    · exact Or.inl
    · rintro (hx | rfl)
      · exact hx
      · exact h
  · simp [h]

theorem runObserverCallback_cons_pos (st : ObsState) (e : Entry) (es : List Entry)
    (hint : e.isIntersecting = true) :
    runObserverCallback st (e :: es) =
      runObserverCallback
        { observed := st.observed.filter (fun z => z ≠ e.target)
          revealed := addId st.revealed e.target } es := by
  simp [runObserverCallback, hint]

theorem runObserverCallback_cons_neg (st : ObsState) (e : Entry) (es : List Entry)
    (hint : e.isIntersecting = false) :
    runObserverCallback st (e :: es) = runObserverCallback st es := by
  simp [runObserverCallback, hint]

theorem runObserverCallback_revealed_mono (entries : List Entry) (x : Nat) :
    ∀ st : ObsState, x ∈ st.revealed →
      x ∈ (runObserverCallback st entries).revealed := by
  induction entries with
  | nil => exact fun st hx => hx
  | cons e es ih =>
      intro st hx
      by_cases hint : e.isIntersecting = true
      · rw [runObserverCallback_cons_pos st e es hint]
        exact ih _ ((mem_addId _ _ _).mpr (Or.inl hx))
      · rw [runObserverCallback_cons_neg st e es (by simpa using hint)]
        exact ih _ hx

theorem runObserverCallback_observed_antitone (entries : List Entry) (x : Nat) :
    ∀ st : ObsState, x ∉ st.observed →
      x ∉ (runObserverCallback st entries).observed := by
  induction entries with
  | nil => exact fun st hx => hx
  | cons e es ih =>
      intro st hx
      by_cases hint : e.isIntersecting = true
      · rw [runObserverCallback_cons_pos st e es hint]
        refine ih _ (fun hmem => hx ?_)
        exact List.mem_of_mem_filter hmem
      · rw [runObserverCallback_cons_neg st e es (by simpa using hint)]
        exact ih _ hx

theorem runObserverCallback_untargeted (entries : List Entry) (x : Nat) :
    ∀ st : ObsState, (∀ e ∈ entries, e.target ≠ x) →
      ((x ∈ (runObserverCallback st entries).observed ↔ x ∈ st.observed) ∧
       (x ∈ (runObserverCallback st entries).revealed ↔ x ∈ st.revealed)) := by
  induction entries with
  | nil => exact fun st _ => ⟨Iff.rfl, Iff.rfl⟩
  | cons e es ih =>
      intro st hx
      have he : e.target ≠ x := hx e (List.mem_cons_self e es)
      have hes : ∀ a ∈ es, a.target ≠ x :=
        fun a ha => hx a (List.mem_cons_of_mem e ha)
      by_cases hint : e.isIntersecting = true
      · rw [runObserverCallback_cons_pos st e es hint]
        obtain ⟨h1, h2⟩ := ih _ hes
        refine ⟨h1.trans ?_, h2.trans ?_⟩
        · simp only [List.mem_filter, decide_eq_true_eq]
          exact ⟨fun h => h.1, fun h => ⟨h, fun hxe => he hxe.symm⟩⟩
        · rw [mem_addId]
          exact ⟨fun h => h.resolve_right (fun hxe => he hxe.symm), Or.inl⟩
      · rw [runObserverCallback_cons_neg st e es (by simpa using hint)]
        exact ih _ hes

theorem runObserverCallback_reveals (entries : List Entry) (x : Nat) :
    ∀ st : ObsState, (∃ e ∈ entries, e.target = x ∧ e.isIntersecting = true) →
      x ∉ (runObserverCallback st entries).observed ∧
      x ∈ (runObserverCallback st entries).revealed := by
  induction entries with
  | nil => intro st h; simp at h
  | cons e es ih =>
      intro st h
      by_cases hint : e.isIntersecting = true
      · rw [runObserverCallback_cons_pos st e es hint]
        by_cases htar : e.target = x
        · subst htar
          constructor
          · apply runObserverCallback_observed_antitone
            simp [List.mem_filter]
          · apply runObserverCallback_revealed_mono
            exact (mem_addId _ _ _).mpr (Or.inr rfl)
        · obtain ⟨e0, he0, ht0, hi0⟩ := h
          rcases List.mem_cons.mp he0 with rfl | hmem
          · exact absurd ht0 htar
          · exact ih _ ⟨e0, hmem, ht0, hi0⟩
      · rw [runObserverCallback_cons_neg st e es (by simpa using hint)]
        obtain ⟨e0, he0, ht0, hi0⟩ := h
        rcases List.mem_cons.mp he0 with rfl | hmem
        · exact absurd hi0 hint
        · exact ih _ ⟨e0, hmem, ht0, hi0⟩

/-! ## Claim theorems -/

/-- C1: `handleFormSubmit` suppresses default submission and then: empty
text or email field emits exactly the error notification "Please fill in
all fields" and stops; otherwise an email failing the pattern check emits
exactly "Please enter a valid email address" and stops; otherwise it emits
a success notification, resets the form, and schedules the modal close
after 1500 ms — in that order, with short-circuiting, and with exactly one
notification per submission. -/
theorem waitlist_submit_flow (name email : String) :
    (handleFormSubmit name email).head? = some .preventDefault ∧
    (name = "" ∨ email = "" →
      handleFormSubmit name email =
        [.preventDefault, .notify "Please fill in all fields" .error]) ∧
    (name ≠ "" → email ≠ "" → emailRegexTest email = false →
      handleFormSubmit name email =
        [.preventDefault, .notify "Please enter a valid email address" .error]) ∧
    (name ≠ "" → email ≠ "" → emailRegexTest email = true →
      handleFormSubmit name email =
        [.preventDefault, .consoleLog,
         .notify "Welcome to the Mojik family! 🎉" .success,
         .resetForm, .scheduleCloseModal 1500]) ∧
    countNotify (handleFormSubmit name email) = 1 := by
  by_cases h1 : name = "" <;> by_cases h2 : email = "" <;>
    by_cases h3 : emailRegexTest email <;>
      simp [handleFormSubmit, countNotify, h1, h2, h3]

/-- C1 witness: the success path at name = "A", email = "a@b.com". -/
theorem waitlist_submit_flow_witness :
    handleFormSubmit "A" "a@b.com" =
      [.preventDefault, .consoleLog,
       .notify "Welcome to the Mojik family! 🎉" .success,
       .resetForm, .scheduleCloseModal 1500] :=
  (waitlist_submit_flow "A" "a@b.com").2.2.2.1 (by decide) (by decide) (by decide)

/-- C2: after the scroll handlers run, the header carries
`header--scrolled` iff the scroll offset exceeds `scrollThreshold`
(100 px), and the back-to-top button carries its visible class iff the
offset exceeds 3 × `scrollThreshold` (300 px). -/
theorem scroll_threshold_classes (s : Nat) (hdr btn : List String) :
    ("header--scrolled" ∈ headerScrollStep s hdr ↔ s > config.scrollThreshold) ∧
    ("footer__back-to-top--visible" ∈ backToTopStep s btn ↔
      s > 3 * config.scrollThreshold) ∧
    handleHeaderScroll s (some hdr) = .ok (headerScrollStep s hdr) ∧
    handleBackToTopVisibility s (some btn) = .ok (backToTopStep s btn) := by
  refine ⟨?_, ?_, rfl, rfl⟩
  · unfold headerScrollStep
    by_cases h : s > config.scrollThreshold <;>
      simp [h, mem_addClass_self, not_mem_removeClass_self]
  · unfold backToTopStep
    have h3 : config.scrollThreshold * 3 = 3 * config.scrollThreshold :=
      Nat.mul_comm _ _
    by_cases h : s > 3 * config.scrollThreshold <;>
      simp [h3, h, mem_addClass_self, not_mem_removeClass_self]

/-- C3: starting from a fresh document, after any finite sequence of
`showNotification` calls at most one notification element is attached, and
after a sequence ending in a call its message and kind are that last
call's (last call wins). -/
theorem notification_last_call_wins (calls : List (String × NotifType))
    (msg : String) (kind : NotifType) :
    (runNotifications Doc.empty (calls ++ [(msg, kind)])).notifications =
      [{ message := msg, kind := kind }] ∧
    (runNotifications Doc.empty calls).notifications.length ≤ 1 := by
  constructor
  · have hlen : (runNotifications Doc.empty calls).notifications.length ≤ 1 :=
      runNotifications_length_le_one Doc.empty (by simp [Doc.empty]) calls
    have happ : runNotifications Doc.empty (calls ++ [(msg, kind)]) =
        showNotification msg kind (runNotifications Doc.empty calls) := by
      unfold runNotifications
      rw [List.foldl_append]
      rfl
    rw [happ, showNotification_of_le_one _ hlen]
  · exact runNotifications_length_le_one Doc.empty (by simp [Doc.empty]) calls

/-- C10: every `showNotification` call appends one keyframe style element
to the head and nothing removes them — after n calls from a fresh document
n style elements have accumulated — while the scheduled removal timer
detaches only its notification element and leaves the head untouched. -/
theorem notification_styles_accumulate (calls : List (String × NotifType))
    (d : Doc) (n : Notification) :
    (runNotifications Doc.empty calls).headStyles = calls.length ∧
    (notificationRemovalTimer d n).headStyles = d.headStyles ∧
    (showNotification n.message n.kind d).headStyles = d.headStyles + 1 := by
  refine ⟨?_, rfl, rfl⟩
  rw [runNotifications_headStyles]
  simp [Doc.empty]

/-- C5 counterexample: with pre-open inline body overflow "scroll",
`closeModal` after `openModal` leaves overflow "" ≠ "scroll" — the
round-trip does not restore an arbitrary pre-open value. -/
theorem modal_overflow_roundtrip_counterexample :
    (closeModal (openModal
      { modalClasses := [], bodyOverflow := "scroll" })).bodyOverflow ≠
      "scroll" := by
  decide

/-- C5 amended: `closeModal` after `openModal` always sets the body
overflow style to the empty string (deferring to the stylesheet); this
equals the pre-open value exactly when that value was already empty. -/
theorem modal_overflow_roundtrip_amended (st : ModalState) :
    (closeModal (openModal st)).bodyOverflow = "" ∧
    ((closeModal (openModal st)).bodyOverflow = st.bodyOverflow ↔
      st.bodyOverflow = "") := by
  refine ⟨rfl, ?_⟩
  simp [openModal, closeModal, eq_comm]

/-- C8: `openModal` and `closeModal` are idempotent on the modal's
presentation state and the body scroll style: a second call from the
resulting state changes nothing. -/
theorem modal_open_close_idempotent (st : ModalState) :
    openModal (openModal st) = openModal st ∧
    closeModal (closeModal st) = closeModal st := by
  constructor
  · simp [openModal, addClass_idem]
  · simp [closeModal, removeClass_idem]

/-- C9: an anchor click with href exactly "#" has no effect; with an
existing target, default navigation is suppressed and the scroll
destination is exactly the target's offset minus the header height; with
no matching target, no scroll occurs and default navigation is not
suppressed. -/
theorem anchor_click_behavior (href : String) (target : Option Int) (hh : Int) :
    (anchorClick href target hh).defaultSuppressed =
      (decide (href ≠ "#") && target.isSome) ∧
    (anchorClick href target hh).scrollDest =
      (if href = "#" then none else target.map (fun t => t - hh)) := by
  by_cases h : href = "#"
  · simp [anchorClick, h, ClickOutcome.defaultSuppressed, ClickOutcome.scrollDest]
  · cases target <;>
      simp [anchorClick, h, ClickOutcome.defaultSuppressed, ClickOutcome.scrollDest]

/-- C4 counterexample: with the header element absent, `handleHeaderScroll`
throws a TypeError instead of no-opping, and so does the initialization
path, which calls it unconditionally — the header reference is not guarded
by a presence check. -/
theorem missing_element_counterexample :
    handleHeaderScroll 0 none =
      Except.error "TypeError: Cannot read properties of null (reading classList)" ∧
    initInitialCalls 0 none (some []) =
      Except.error "TypeError: Cannot read properties of null (reading classList)" := by
  exact ⟨rfl, rfl⟩

/-- C4 amended: only some optional-element references are guarded.  The
hero reference in `handleParallax` is guarded (absence is a silent no-op),
and a non-Escape key never dereferences the modal; but `handleHeaderScroll`,
`handleBackToTopVisibility` and the Escape branch of `handleKeyboard`
dereference the header, the back-to-top button and the modal with no
presence check and throw when the element is absent.  When the elements
are present, every handler completes without an exception. -/
theorem element_guards_amended (s ih : Nat) (cls : List String) (pos : Nat)
    (key : String) (mst : ModalState) :
    handleParallax s ih none = Except.ok none ∧
    (key ≠ "Escape" → handleKeyboard key none = Except.ok none) ∧
    (∃ e, handleHeaderScroll s none = Except.error e) ∧
    (∃ e, handleBackToTopVisibility s none = Except.error e) ∧
    (∃ e, handleKeyboard "Escape" none = Except.error e) ∧
    handleHeaderScroll s (some cls) = Except.ok (headerScrollStep s cls) ∧
    handleBackToTopVisibility s (some cls) = Except.ok (backToTopStep s cls) ∧
    (∃ r, handleParallax s ih (some pos) = Except.ok (some r)) ∧
    (∃ r, handleKeyboard key (some mst) = Except.ok (some r)) := by
  refine ⟨rfl, ?_, ⟨_, rfl⟩, ⟨_, rfl⟩, ⟨_, rfl⟩, rfl, rfl, ?_, ?_⟩
  · intro hk
    simp [handleKeyboard, hk]
  · by_cases h : s < ih
    · exact ⟨s, by simp [handleParallax, h]⟩
    · exact ⟨pos, by simp [handleParallax, h]⟩
  · by_cases hk : key = "Escape"
    · by_cases hm : "modal--active" ∈ mst.modalClasses
      · exact ⟨closeModal mst, by simp [handleKeyboard, hk, hm]⟩
      · exact ⟨mst, by simp [handleKeyboard, hk, hm]⟩
    · exact ⟨mst, by simp [handleKeyboard, hk]⟩

/-- C4 amended witness: a non-Escape keydown with the modal absent is a
silent no-op. -/
theorem element_guards_amended_witness :
    handleKeyboard "a" none = Except.ok none :=
  (element_guards_amended 0 0 [] 0 "a"
    { modalClasses := [], bodyOverflow := "" }).2.1 (by decide)

/-- C6 counterexample: in the batch [non-intersecting entry, intersecting
entry targeting element 9], the code assigns element 9 the delay
1 × 100 ms = 100 ms (its index in the whole batch), while indexing over
only the intersecting entries would assign it 0 ms. -/
theorem stagger_index_counterexample :
    observerDelays
        [{ isIntersecting := false, target := 7 },
         { isIntersecting := true, target := 9 }] = [(9, 100)] ∧
    observerDelaysSpec
        [{ isIntersecting := false, target := 7 },
         { isIntersecting := true, target := 9 }] = [(9, 0)] := by
  exact ⟨rfl, rfl⟩

/-- C6 amended: each intersecting element of a callback batch is assigned
a delay of (its index in the whole batch) × 100 ms, counting
non-intersecting entries as well; in particular, on a batch whose entries
all intersect this agrees with indexing over only the intersecting
entries. -/
theorem stagger_index_amended (entries : List Entry) (i : Nat)
    (h : i < entries.length) (hi : entries[i].isIntersecting = true) :
    (entries[i].target, i * config.animationDelay) ∈ observerDelays entries ∧
    ((∀ e ∈ entries, e.isIntersecting = true) →
      observerDelays entries = observerDelaysSpec entries) := by
  constructor
  · have hmem : (i, entries[i]) ∈ entries.enum :=
      List.mem_enum_iff_getElem?.mpr (by simp [h])
    exact List.mem_filterMap.mpr ⟨(i, entries[i]), hmem, by simp [hi]⟩
  · intro hall
    unfold observerDelays observerDelaysSpec
    rw [List.filter_eq_self.mpr hall]
    exact observerDelays_enumFrom_all entries 0 hall

/-- C6 amended witness: a batch consisting of one intersecting entry; its
element gets delay 0 × 100 ms = 0. -/
theorem stagger_index_amended_witness :
    ((9 : Nat), (0 : Nat)) ∈
      observerDelays [{ isIntersecting := true, target := 9 }] := by
  have h := (stagger_index_amended
    [{ isIntersecting := true, target := 9 }] 0 (by decide) rfl).1
  simpa using h

/-- C7: reveal transitions are one-way and at most once.  Provided the
observer only delivers entries for currently observed targets: an element
with an intersecting entry in the batch ends up unobserved and carrying
the animate-in class; an element no longer observed is unaffected by the
batch (it stays unobserved and its class membership is unchanged, so no
later event has any further effect); and a revealed element never loses
the class (the transition never reverts). -/
theorem reveal_transition_one_way (st : ObsState) (entries : List Entry) (x : Nat)
    (hvalid : ∀ e ∈ entries, e.target ∈ st.observed) :
    ((∃ e ∈ entries, e.target = x ∧ e.isIntersecting = true) →
      x ∉ (runObserverCallback st entries).observed ∧
      x ∈ (runObserverCallback st entries).revealed) ∧
    (x ∉ st.observed →
      x ∉ (runObserverCallback st entries).observed ∧
      (x ∈ (runObserverCallback st entries).revealed ↔ x ∈ st.revealed)) ∧
    (x ∈ st.revealed → x ∈ (runObserverCallback st entries).revealed) := by
  refine ⟨fun h => runObserverCallback_reveals entries x st h, fun hx => ?_,
    fun hr => runObserverCallback_revealed_mono entries x st hr⟩
  have hnt : ∀ e ∈ entries, e.target ≠ x :=
    fun e he heq => hx (heq ▸ hvalid e he)
  obtain ⟨h1, h2⟩ := runObserverCallback_untargeted entries x st hnt
  exact ⟨fun hm => hx (h1.mp hm), h2⟩

/-- C7 witness: element 5, observed and intersecting in a one-entry batch,
ends unobserved and revealed. -/
theorem reveal_transition_one_way_witness :
    5 ∉ (runObserverCallback
          { observed := [5], revealed := [] }
          [{ isIntersecting := true, target := 5 }]).observed ∧
    5 ∈ (runObserverCallback
          { observed := [5], revealed := [] }
          [{ isIntersecting := true, target := 5 }]).revealed :=
  (reveal_transition_one_way
    { observed := [5], revealed := [] }
    [{ isIntersecting := true, target := 5 }] 5 (by decide)).1 (by decide)

end Mojik
